import Mathlib

/-!
Shallow embedding of the Trainify-bot backend server (Express application):
the multer upload configuration (disk-storage filename generation and the
file filter), the `processUploadedFile` extractor, the `cleanupFile` helper,
and the `/api/translate` and `/api/chat` request handlers.  External effects
(filesystem reads, the PDF parser, the model gateway, file unlinking) are
modelled as explicit environment inputs; the handlers are pure functions from
request and environment to a response plus an effect log (gateway calls made,
unlink attempts performed before responding).
-/

namespace Trainify

/-! ### path.extname -/

/-- Suffix of the character list starting at its last dot, if any
(helper for the embedding of Node's path.extname). -/
def lastDotSuffix : List Char → Option (List Char)
  | [] => none
  | c :: rest =>
    match lastDotSuffix rest with
    | some s => some s
    | none => if c = '.' then some (c :: rest) else none

/-- Embedding of path.extname for a bare file name: the substring from the
last dot to the end, except that a dot at position 0 (dotfile) and a name
with no dot give the empty string. -/
def extname (s : String) : String :=
  match s.data with
  | [] => ""
  | _ :: rest =>
    match lastDotSuffix rest with
    | some suf => ⟨suf⟩
    | none => ""

/-! ### JavaScript string primitives -/

/-- Embedding of the JavaScript toLowerCase call on an extension string
(character-wise lowering; only ASCII letters occur in extensions). -/
def jsToLower (s : String) : String := ⟨s.data.map Char.toLower⟩

/-- Embedding of the JavaScript substring(0, n) call: the first n characters
of the string, or the whole string when it is shorter. -/
def substringTo (s : String) (n : Nat) : String := ⟨s.data.take n⟩

/-- Embedding of the JavaScript trim call: strip whitespace from both ends. -/
def jsTrim (s : String) : String :=
  ⟨((s.data.dropWhile Char.isWhitespace).reverse.dropWhile Char.isWhitespace).reverse⟩

/-! ### multer configuration -/

/-- The extension allow-list of the multer fileFilter. -/
def allowedTypes : List String := [".pdf", ".txt"]

/-- Embedding of the multer fileFilter: accept exactly when the lowercased
extension of the original name is on the allow-list. -/
def fileFilter (originalname : String) : Bool :=
  allowedTypes.contains (jsToLower (extname originalname))

/-- Fuel-driven helper producing the decimal digits of a natural number,
least significant first; any fuel above the digit count yields the full
digit list. -/
def toDigitsRevAux (fuel n : Nat) : List Char :=
  match fuel with
  | 0 => []
  | fuel + 1 =>
    if n < 10 then [Nat.digitChar n]
    else Nat.digitChar (n % 10) :: toDigitsRevAux fuel (n / 10)

/-- Decimal digits of a natural number, least significant first
(helper for the embedding of JavaScript number-to-string coercion). -/
def toDigitsRev (n : Nat) : List Char := toDigitsRevAux (n + 1) n

/-- Decimal rendering of a natural number, as JavaScript renders an integer
when concatenating it into a string. -/
def natStr (n : Nat) : String := ⟨(toDigitsRev n).reverse⟩

/-- Embedding of the multer diskStorage filename callback: the stored name is
Date.now() + a dash + Math.round(Math.random() * 1E9) + path.extname of the
original name.  The timestamp and the random draw are inputs here. -/
def storedFilename (timestamp rand : Nat) (originalname : String) : String :=
  natStr timestamp ++ "-" ++ natStr rand ++ extname originalname

/-! ### language prompts -/

/-- The canned Chinese system prompt. -/
def chinesePrompt : String := "用中文回答，保持专业且自然的语气"

/-- The canned English system prompt. -/
def englishPrompt : String :=
  "Respond in English, maintaining a professional and natural tone"

/-- The canned Spanish system prompt. -/
def spanishPrompt : String :=
  "Responde en español, manteniendo un tono profesional y natural"

/-- The canned French system prompt. -/
def frenchPrompt : String :=
  "Répondez en français, en maintenant un ton professionnel et naturel"

/-- The canned German system prompt. -/
def germanPrompt : String :=
  "Antworten Sie auf Deutsch und behalten Sie einen professionellen und natürlichen Ton bei"

/-- The canned Japanese system prompt. -/
def japanesePrompt : String := "日本語で回答し、専門的で自然な口調を保つ"

/-- The canned Korean system prompt. -/
def koreanPrompt : String := "한국어로 답변하고 전문적이고 자연스러운 어조를 유지하세요"

/-- The canned Russian system prompt. -/
def russianPrompt : String :=
  "Отвечайте на русском языке, сохраняя профессиональный и естественный тон"

/-- Embedding of the languagePrompts object literal: property access by
language name, undefined (none) for any other key. -/
def languagePrompts (l : String) : Option String :=
  if l = "Chinese" then some chinesePrompt
  else if l = "English" then some englishPrompt
  else if l = "Spanish" then some spanishPrompt
  else if l = "French" then some frenchPrompt
  else if l = "German" then some germanPrompt
  else if l = "Japanese" then some japanesePrompt
  else if l = "Korean" then some koreanPrompt
  else if l = "Russian" then some russianPrompt
  else none

/-- Embedding of the JavaScript expression x || d for x a string or
undefined: the default is taken when x is undefined or the empty string
(the only falsy string). -/
def jsOrDefault (v : Option String) (d : String) : String :=
  match v with
  | none => d
  | some s => if s = "" then d else s

/-- Embedding of the expression languagePrompts[language] ||
languagePrompts.Chinese resolving the system prompt for a chat request. -/
def resolvePrompt (language : String) : String :=
  jsOrDefault (languagePrompts language) chinesePrompt

/-! ### file extraction -/

/-- What the runtime can observe of a stored file's bytes: the outcome of
running pdfParse over them (a thrown error message, or the extracted text
with pdfData.text absent modelled as the empty string), and their UTF-8
decoding. -/
structure FsFile where
  pdfParseResult : Except String String
  utf8Content : String

/-- Embedding of processUploadedFile: read the file at filePath (the read
outcome is supplied by the environment map), dispatch on the lowercased
extension of the original name, reject empty-after-trim content, and rethrow
any error (the catch block only logs before rethrowing). -/
def processUploadedFile (read : String → Except String FsFile)
    (filePath originalName : String) : Except String String :=
  match read filePath with
  | .error m => .error m
  | .ok data =>
    let ext := jsToLower (extname originalName)
    if ext = ".pdf" then
      match data.pdfParseResult with
      | .error m => .error m
      | .ok t =>
        if (jsTrim t).length = 0 then .error "PDF contains no readable text" else .ok t
    else if ext = ".txt" then
      if (jsTrim data.utf8Content).length = 0 then .error "Text file is empty"
      else .ok data.utf8Content
    else .error "Unsupported file type"

/-! ### cleanup -/

/-- Embedding of cleanupFile: attempt fs.unlink when the path is truthy;
the result of the unlink (success or failure) is discarded because the
catch block swallows any error after logging it.  The returned list is
the unlink attempt log. -/
def cleanupFile (unlinkOk : String → Bool) (filePath : String) : List String :=
  if filePath = "" then []
  else
    let _ := unlinkOk filePath
    [filePath]

/-! ### the translate endpoint -/

/-- The request file object multer attaches: stored path and original name. -/
structure UploadedFile where
  path : String
  originalname : String
deriving DecidableEq

/-- A translate request as the handler sees it: the optional multer file and
the optional targetLanguage body field. -/
structure TranslateReq where
  file : Option UploadedFile
  targetLanguage : Option String
deriving DecidableEq

/-- One chat-completion request sent to the model gateway. -/
structure GatewayCall where
  system : String
  user : String
  model : String
  maxTokens : Nat
deriving DecidableEq

/-- The model id both endpoints pass to the gateway. -/
def modelId : String := "llama-3.3-70b-versatile"

/-- The fixed suggestion string of the translate failure envelope. -/
def suggestionText : String :=
  "Please ensure you upload a valid PDF or text file with readable content"

/-- The JSON responses the translate endpoint can send. -/
inductive TranslateResponse where
  | ok (originalText translatedText language : String) (originalLength : Nat)
  | badRequest (error : String)
  | serverError (error message suggestion : String)
  | uploadRejected (message : String)
deriving DecidableEq

/-- Environment of a translate request: the filesystem read outcome per path,
the gateway outcome per call (an exception message, or the optional
choices[0].message.content of the response), and whether unlinking a path
would succeed. -/
structure TranslateEnv where
  read : String → Except String FsFile
  gateway : GatewayCall → Except String (Option String)
  unlinkOk : String → Bool

/-- Observable outcome of a translate request: the response together with the
gateway calls made and the unlink attempts performed before responding. -/
structure TranslateOutcome where
  response : TranslateResponse
  gatewayCalls : List GatewayCall
  unlinkCalls : List String
deriving DecidableEq

/-- The gateway call the translate handler builds: the translation system
prompt for the target language, the first 2000 characters of the extracted
text as user content, the fixed model id, and max_tokens 2048. -/
def translateCall (fileContent targetLang : String) : GatewayCall :=
  ⟨"Translate the following text to " ++ targetLang ++
    " while maintaining the original meaning and tone:",
    substringTo fileContent 2000, modelId, 2048⟩

/-- Embedding of the /api/translate handler body: reject a missing file with
400, extract, build the translation gateway call over the first 2000
characters, and on success or on any thrown error clean up the stored file
before responding. -/
def translateHandler (req : TranslateReq) (env : TranslateEnv) : TranslateOutcome :=
  match req.file with
  | none => ⟨.badRequest "No file uploaded", [], []⟩
  | some f =>
    match processUploadedFile env.read f.path f.originalname with
    | .error e =>
      ⟨.serverError "Translation failed" e suggestionText, [],
        cleanupFile env.unlinkOk f.path⟩
    | .ok fileContent =>
      let targetLang := jsOrDefault req.targetLanguage "Chinese"
      let call : GatewayCall := translateCall fileContent targetLang
      match env.gateway call with
      | .error e =>
        ⟨.serverError "Translation failed" e suggestionText, [call],
          cleanupFile env.unlinkOk f.path⟩
      | .ok content? =>
        ⟨.ok (substringTo fileContent 2000) (jsOrDefault content? "") targetLang
            fileContent.length, [call],
          cleanupFile env.unlinkOk f.path⟩

/-- An incoming multipart upload before multer filters it. -/
structure Upload where
  originalname : String
deriving DecidableEq

/-- Embedding of the whole /api/translate route: multer's fileFilter runs
first; a rejected file short-circuits with multer's error before the handler
(and hence before any gateway call), an accepted one is stored under the
generated path and handed to the handler. -/
def translateEndpoint (upload? : Option Upload) (storedPath : String)
    (targetLanguage : Option String) (env : TranslateEnv) : TranslateOutcome :=
  match upload? with
  | none => translateHandler ⟨none, targetLanguage⟩ env
  | some u =>
    if fileFilter u.originalname then
      translateHandler ⟨some ⟨storedPath, u.originalname⟩, targetLanguage⟩ env
    else
      ⟨.uploadRejected "Only PDF and TXT files are allowed", [], []⟩

/-! ### the chat endpoint -/

/-- The message field of a chat request body: a JSON string, or any
non-string JSON value. -/
inductive ChatMessage where
  | str (s : String)
  | nonString
deriving DecidableEq

/-- A chat request body: optional message and optional language field
(none models an absent field, so the destructuring default applies). -/
structure ChatReq where
  message : Option ChatMessage
  language : Option String
deriving DecidableEq

/-- The JSON responses the chat endpoint can send. -/
inductive ChatResponse where
  | ok (response language : String)
  | badRequest (error : String)
  | serverError (error message : String)
deriving DecidableEq

/-- Environment of a chat request: the gateway outcome per call. -/
structure ChatEnv where
  gateway : GatewayCall → Except String (Option String)

/-- Observable outcome of a chat request: the response and the gateway calls
made. -/
structure ChatOutcome where
  response : ChatResponse
  gatewayCalls : List GatewayCall
deriving DecidableEq

/-- Embedding of the /api/chat handler: reject a missing, non-string or
empty message with 400 before any gateway call; otherwise resolve the system
prompt from the language (defaulted to Chinese when absent), call the
gateway, and answer with the content or the placeholder when the content is
absent or empty; a gateway exception yields the 500 chat envelope. -/
def chatHandler (req : ChatReq) (env : ChatEnv) : ChatOutcome :=
  match req.message with
  | some (.str s) =>
    if s = "" then ⟨.badRequest "Valid message is required", []⟩
    else
      let language := req.language.getD "Chinese"
      let call : GatewayCall := ⟨resolvePrompt language, s, modelId, 1024⟩
      match env.gateway call with
      | .error e => ⟨.serverError "Chat failed" e, [call]⟩
      | .ok content? =>
        ⟨.ok (jsOrDefault content? "No response") language, [call]⟩
  | some .nonString => ⟨.badRequest "Valid message is required", []⟩
  | none => ⟨.badRequest "Valid message is required", []⟩

/-! ### spec-side definitions for comparison -/

/-- The eight supported language names of the spec's fixed mapping. -/
def supportedLanguages : List String :=
  ["Chinese", "English", "Spanish", "French", "German", "Japanese", "Korean", "Russian"]

/-- The system prompt the spec prescribes: the canned prompt of the given
language when it is one of the eight supported ones, the Chinese prompt for
any other or missing language.  Stated from the spec's words, to be compared
with the handler's resolution. -/
def specSystemPrompt (language : Option String) : String :=
  match language with
  | none => chinesePrompt
  | some l =>
    if l = "Chinese" then chinesePrompt
    else if l = "English" then englishPrompt
    else if l = "Spanish" then spanishPrompt
    else if l = "French" then frenchPrompt
    else if l = "German" then germanPrompt
    else if l = "Japanese" then japanesePrompt
    else if l = "Korean" then koreanPrompt
    else if l = "Russian" then russianPrompt
    else chinesePrompt

/-! ### theorems: the chat endpoint -/

/-- The handler's prompt resolution agrees with the spec-side lookup-with-
Chinese-fallback for every optional language value. -/
lemma resolvePrompt_eq_spec (l? : Option String) :
    resolvePrompt (l?.getD "Chinese") = specSystemPrompt l? := by
  have hC : chinesePrompt ≠ "" := by decide
  have hE : englishPrompt ≠ "" := by decide
  have hS : spanishPrompt ≠ "" := by decide
  have hF : frenchPrompt ≠ "" := by decide
  have hG : germanPrompt ≠ "" := by decide
  have hJ : japanesePrompt ≠ "" := by decide
  have hK : koreanPrompt ≠ "" := by decide
  have hR : russianPrompt ≠ "" := by decide
  cases l? with
  | none => simp [resolvePrompt, languagePrompts, specSystemPrompt, jsOrDefault, hC]
  | some l =>
    simp only [Option.getD, resolvePrompt, languagePrompts, specSystemPrompt]
    split_ifs <;> simp_all [jsOrDefault]

/-- Unfolding of the chat handler on a valid (some, non-empty string)
message: the single gateway call and the two possible outcomes. -/
lemma chatHandler_valid (s : String) (lang : Option String) (env : ChatEnv) (hs : s ≠ "") :
    chatHandler ⟨some (.str s), lang⟩ env =
      match env.gateway ⟨resolvePrompt (lang.getD "Chinese"), s, modelId, 1024⟩ with
      | .error e => ⟨.serverError "Chat failed" e,
          [⟨resolvePrompt (lang.getD "Chinese"), s, modelId, 1024⟩]⟩
      | .ok content? => ⟨.ok (jsOrDefault content? "No response") (lang.getD "Chinese"),
          [⟨resolvePrompt (lang.getD "Chinese"), s, modelId, 1024⟩]⟩ := by
  simp only [chatHandler]
  rw [if_neg hs]

/-- C4: for every chat request with a valid message, the system prompt of
the single gateway call is the canned prompt of the requested language when
that language is one of the eight supported ones, and the Chinese prompt for
any other or missing language. -/
theorem chat_system_prompt_resolution (req : ChatReq) (env : ChatEnv) (s : String)
    (hm : req.message = some (.str s)) (hs : s ≠ "") :
    ((chatHandler req env).gatewayCalls.map GatewayCall.system)
      = [specSystemPrompt req.language] := by
  obtain ⟨msg, lang⟩ := req
  simp only [] at hm ⊢
  subst hm
  rw [chatHandler_valid _ _ _ hs]
  split <;> simp [resolvePrompt_eq_spec]

/-- C4 witness: a concrete chat request for French receives the French
canned prompt. -/
theorem chat_system_prompt_resolution_witness :
    ((chatHandler ⟨some (.str "hi"), some "French"⟩
        ⟨fun _ => .ok (some "x")⟩).gatewayCalls.map GatewayCall.system)
      = [specSystemPrompt (some "French")] :=
  chat_system_prompt_resolution _ _ "hi" rfl (by decide)

/-- C5: a chat request whose message is missing, not a string, or the empty
string is answered with the 400 envelope and makes no gateway call. -/
theorem chat_invalid_message_rejected (req : ChatReq) (env : ChatEnv)
    (h : req.message = none ∨ req.message = some .nonString ∨
      req.message = some (.str "")) :
    chatHandler req env = ⟨.badRequest "Valid message is required", []⟩ := by
  obtain ⟨msg, lang⟩ := req
  rcases h with h | h | h
  · have h2 : msg = none := h
    subst h2; rfl
  · have h2 : msg = some .nonString := h
    subst h2; rfl
  · have h2 : msg = some (.str "") := h
    subst h2; rfl

/-- C5 witness: the empty-string message is rejected with the 400 envelope
and no gateway call. -/
theorem chat_invalid_message_rejected_witness :
    chatHandler ⟨some (.str ""), some "English"⟩ ⟨fun _ => .ok (some "x")⟩
      = ⟨.badRequest "Valid message is required", []⟩ :=
  chat_invalid_message_rejected _ _ (Or.inr (Or.inr rfl))

/-- C10: a non-empty message passes validation and is forwarded to the
gateway unchanged (the check does not trim), and the 400 rejection happens
exactly when the message is missing, not a string, or the empty string. -/
theorem chat_whitespace_message_forwarded (req : ChatReq) (env : ChatEnv) :
    (∀ s, req.message = some (.str s) → s ≠ "" →
      (chatHandler req env).gatewayCalls.map GatewayCall.user = [s]) ∧
    ((chatHandler req env).response = .badRequest "Valid message is required" ↔
      (req.message = none ∨ req.message = some .nonString ∨
        req.message = some (.str ""))) := by
  obtain ⟨msg, lang⟩ := req
  constructor
  · intro s hm hs
    have h2 : msg = some (.str s) := hm
    subst h2
    rw [chatHandler_valid _ _ _ hs]
    split <;> rfl
  · constructor
    · intro h
      cases msg with
      | none => exact Or.inl rfl
      | some m =>
        cases m with
        | nonString => exact Or.inr (Or.inl rfl)
        | str s =>
          by_cases hs : s = ""
          · subst hs; exact Or.inr (Or.inr rfl)
          · exfalso
            rw [chatHandler_valid _ _ _ hs] at h
            revert h
            split <;> simp
    · intro h
      rcases h with h | h | h
      · have h2 : msg = none := h
        subst h2; rfl
      · have h2 : msg = some .nonString := h
        subst h2; rfl
      · have h2 : msg = some (.str "") := h
        subst h2; rfl

/-- C10 witness: a single-space message is forwarded to the gateway
unchanged. -/
theorem chat_whitespace_message_forwarded_witness :
    (chatHandler ⟨some (.str " "), none⟩
        ⟨fun _ => .ok (some "x")⟩).gatewayCalls.map GatewayCall.user = [" "] := by
  have h := chat_whitespace_message_forwarded ⟨some (.str " "), none⟩ ⟨fun _ => .ok (some "x")⟩
  exact h.1 " " rfl (by decide)

/-- C3 counterexample: at a concrete chat request whose gateway response
carries no content, the handler answers with the fixed placeholder string,
which is not the empty string the claim demands. -/
theorem chat_empty_content_counterexample :
    (chatHandler ⟨some (.str "hi"), none⟩ ⟨fun _ => .ok none⟩).response
        = .ok "No response" "Chinese" ∧ ("No response" : String) ≠ "" := by
  constructor
  · rfl
  · decide

/-- C3 amended: when the gateway response carries no generated text (absent
or empty content), the chat operation still succeeds, answering with the
fixed placeholder string No response rather than raising an error. -/
theorem chat_empty_content_placeholder (req : ChatReq) (env : ChatEnv)
    (s : String) (c? : Option String)
    (hm : req.message = some (.str s)) (hs : s ≠ "")
    (hg : ∀ call, env.gateway call = .ok c?)
    (hc : c? = none ∨ c? = some "") :
    (chatHandler req env).response
      = .ok "No response" (req.language.getD "Chinese") := by
  obtain ⟨msg, lang⟩ := req
  simp only [] at hm ⊢
  subst hm
  rw [chatHandler_valid _ _ _ hs]
  simp only [hg]
  rcases hc with rfl | rfl <;> rfl

/-- C3 amended witness: a concrete request with an absent content field
yields the placeholder response. -/
theorem chat_empty_content_placeholder_witness :
    (chatHandler ⟨some (.str "hi"), none⟩ ⟨fun _ => .ok none⟩).response
      = .ok "No response" ((none : Option String).getD "Chinese") :=
  chat_empty_content_placeholder ⟨some (.str "hi"), none⟩ ⟨fun _ => .ok none⟩ "hi" none
    rfl (by decide) (fun _ => rfl) (Or.inl rfl)

/-! ### theorems: the translate endpoint -/

/-- Unfolding of the translate handler when a file is attached. -/
lemma translateHandler_some (f : UploadedFile) (tl : Option String) (env : TranslateEnv) :
    translateHandler ⟨some f, tl⟩ env =
      match processUploadedFile env.read f.path f.originalname with
      | .error e =>
        ⟨.serverError "Translation failed" e suggestionText, [],
          cleanupFile env.unlinkOk f.path⟩
      | .ok fileContent =>
        match env.gateway (translateCall fileContent (jsOrDefault tl "Chinese")) with
        | .error e =>
          ⟨.serverError "Translation failed" e suggestionText,
            [translateCall fileContent (jsOrDefault tl "Chinese")],
            cleanupFile env.unlinkOk f.path⟩
        | .ok content? =>
          ⟨.ok (substringTo fileContent 2000) (jsOrDefault content? "")
              (jsOrDefault tl "Chinese") fileContent.length,
            [translateCall fileContent (jsOrDefault tl "Chinese")],
            cleanupFile env.unlinkOk f.path⟩ := by
  simp only [translateHandler]

/-- C1: every successful translate response carries as originalText exactly
the first 2000 characters of the extracted text, and as originalLength the
length of the full extracted text before truncation. -/
theorem translate_success_truncation (req : TranslateReq) (env : TranslateEnv)
    (ot tt lang : String) (len : Nat)
    (h : (translateHandler req env).response = .ok ot tt lang len) :
    ∃ f t, req.file = some f ∧
      processUploadedFile env.read f.path f.originalname = .ok t ∧
      ot = substringTo t 2000 ∧ len = t.length := by
  obtain ⟨file?, tl⟩ := req
  cases file? with
  | none => exact absurd h (by simp [translateHandler])
  | some f =>
    rw [translateHandler_some] at h
    revert h
    split
    · intro h; exact absurd h (by simp)
    · rename_i t heq
      split
      · intro h; exact absurd h (by simp)
      · intro h
        injection h with h1 h2 h3 h4
        exact ⟨f, t, rfl, heq, h1.symm, h4.symm⟩

/-- C1 witness: a concrete successful translate over the text hello has
originalText hello and originalLength 5. -/
theorem translate_success_truncation_witness :
    ∃ f t,
      (⟨some ⟨"uploads/1-2.txt", "a.txt"⟩, none⟩ : TranslateReq).file = some f ∧
      processUploadedFile (fun _ => .ok ⟨.error "no pdf", "hello"⟩) f.path f.originalname
        = .ok t ∧
      ("hello" : String) = substringTo t 2000 ∧ 5 = t.length :=
  translate_success_truncation ⟨some ⟨"uploads/1-2.txt", "a.txt"⟩, none⟩
    ⟨fun _ => .ok ⟨.error "no pdf", "hello"⟩, fun _ => .ok (some "bonjour"), fun _ => true⟩
    "hello" "bonjour" "Chinese" 5 rfl

/-- C2: for every translate request with a file, on every path through the
handler the stored file is unlinked exactly once before responding, and the
outcome never depends on whether the unlink itself succeeds (the failure is
caught and only logged). -/
theorem translate_cleanup_once (req : TranslateReq) (env : TranslateEnv)
    (f : UploadedFile) (u₁ u₂ : String → Bool)
    (hf : req.file = some f) (hp : f.path ≠ "") :
    (translateHandler req env).unlinkCalls = [f.path] ∧
    translateHandler req ⟨env.read, env.gateway, u₁⟩
      = translateHandler req ⟨env.read, env.gateway, u₂⟩ := by
  obtain ⟨file?, tl⟩ := req
  simp only [] at hf
  subst hf
  constructor
  · rw [translateHandler_some]
    split
    · simp [cleanupFile, hp]
    · split <;> simp [cleanupFile, hp]
  · rfl

/-- C2 witness: a concrete translate request unlinks its stored file exactly
once and its outcome is unchanged by an unlink failure. -/
theorem translate_cleanup_once_witness :
    (translateHandler ⟨some ⟨"uploads/9-9.txt", "a.txt"⟩, none⟩
        ⟨fun _ => .ok ⟨.error "no pdf", "hi"⟩, fun _ => .ok (some "嗨"), fun _ => true⟩).unlinkCalls
      = ["uploads/9-9.txt"] ∧
    translateHandler ⟨some ⟨"uploads/9-9.txt", "a.txt"⟩, none⟩
        ⟨fun _ => .ok ⟨.error "no pdf", "hi"⟩, fun _ => .ok (some "嗨"), fun _ => false⟩
      = translateHandler ⟨some ⟨"uploads/9-9.txt", "a.txt"⟩, none⟩
          ⟨fun _ => .ok ⟨.error "no pdf", "hi"⟩, fun _ => .ok (some "嗨"), fun _ => true⟩ :=
  translate_cleanup_once ⟨some ⟨"uploads/9-9.txt", "a.txt"⟩, none⟩
    ⟨fun _ => .ok ⟨.error "no pdf", "hi"⟩, fun _ => .ok (some "嗨"), fun _ => false⟩
    ⟨"uploads/9-9.txt", "a.txt"⟩ (fun _ => false) (fun _ => true) rfl (by decide)

/-- C6: a translate request whose file extension, lowercased, is neither
.pdf nor .txt is rejected by the upload filter with the unsupported-type
error before the handler runs, so no gateway call is ever made. -/
theorem translate_bad_extension_rejected (u : Upload) (storedPath : String)
    (tl : Option String) (env : TranslateEnv)
    (h1 : jsToLower (extname u.originalname) ≠ ".pdf")
    (h2 : jsToLower (extname u.originalname) ≠ ".txt") :
    translateEndpoint (some u) storedPath tl env
      = ⟨.uploadRejected "Only PDF and TXT files are allowed", [], []⟩ := by
  have hff : fileFilter u.originalname = false := by
    simp [fileFilter, allowedTypes, h1, h2]
  simp [translateEndpoint, hff]

/-- C6 witness: an .exe upload is rejected and the outcome records no
gateway call. -/
theorem translate_bad_extension_rejected_witness :
    translateEndpoint (some ⟨"malware.exe"⟩) "uploads/1-2.exe" none
        ⟨fun _ => .ok ⟨.error "no pdf", "x"⟩, fun _ => .ok (some "y"), fun _ => true⟩
      = ⟨.uploadRejected "Only PDF and TXT files are allowed", [], []⟩ :=
  translate_bad_extension_rejected ⟨"malware.exe"⟩ "uploads/1-2.exe" none
    ⟨fun _ => .ok ⟨.error "no pdf", "x"⟩, fun _ => .ok (some "y"), fun _ => true⟩
    (by decide) (by decide)

/-- Extraction of a .txt file whose decoded content is empty after trimming
fails with the fixed empty-text message. -/
lemma process_txt_empty (read : String → Except String FsFile) (p name : String)
    (data : FsFile)
    (hext : jsToLower (extname name) = ".txt")
    (hread : read p = .ok data)
    (htrim : (jsTrim data.utf8Content).length = 0) :
    processUploadedFile read p name = .error "Text file is empty" := by
  unfold processUploadedFile
  rw [hread]
  simp [hext, htrim]

/-- Extraction of a .pdf file whose parsed text is empty after trimming
fails with the fixed no-readable-text message. -/
lemma process_pdf_empty (read : String → Except String FsFile) (p name : String)
    (data : FsFile) (t : String)
    (hext : jsToLower (extname name) = ".pdf")
    (hread : read p = .ok data)
    (hpdf : data.pdfParseResult = .ok t)
    (htrim : (jsTrim t).length = 0) :
    processUploadedFile read p name = .error "PDF contains no readable text" := by
  unfold processUploadedFile
  rw [hread]
  simp [hext, hpdf, htrim]

/-- C7: a translate request over a .txt file whose decoded content is empty
after trimming is answered with the 500 envelope carrying the empty-text
message, and the same holds for a .pdf whose extracted text trims to empty;
in both cases no gateway call is made. -/
theorem translate_empty_content_failure :
    (∀ (req : TranslateReq) (env : TranslateEnv) (f : UploadedFile) (data : FsFile),
      req.file = some f →
      jsToLower (extname f.originalname) = ".txt" →
      env.read f.path = .ok data →
      (jsTrim data.utf8Content).length = 0 →
      (translateHandler req env).response
          = .serverError "Translation failed" "Text file is empty" suggestionText ∧
        (translateHandler req env).gatewayCalls = []) ∧
    (∀ (req : TranslateReq) (env : TranslateEnv) (f : UploadedFile) (data : FsFile)
        (t : String),
      req.file = some f →
      jsToLower (extname f.originalname) = ".pdf" →
      env.read f.path = .ok data →
      data.pdfParseResult = .ok t →
      (jsTrim t).length = 0 →
      (translateHandler req env).response
          = .serverError "Translation failed" "PDF contains no readable text" suggestionText ∧
        (translateHandler req env).gatewayCalls = []) := by
  constructor
  · intro req env f data hf hext hread htrim
    obtain ⟨file?, tl⟩ := req
    simp only [] at hf
    subst hf
    rw [translateHandler_some, process_txt_empty env.read f.path f.originalname data hext hread htrim]
    exact ⟨rfl, rfl⟩
  · intro req env f data t hf hext hread hpdf htrim
    obtain ⟨file?, tl⟩ := req
    simp only [] at hf
    subst hf
    rw [translateHandler_some,
      process_pdf_empty env.read f.path f.originalname data t hext hread hpdf htrim]
    exact ⟨rfl, rfl⟩

/-- C7 witness: a whitespace-only .txt upload is answered with the 500
empty-text envelope and makes no gateway call. -/
theorem translate_empty_content_failure_witness :
    (translateHandler ⟨some ⟨"uploads/3-4.txt", "blank.txt"⟩, none⟩
        ⟨fun _ => .ok ⟨.error "no pdf", "   "⟩, fun _ => .ok (some "y"), fun _ => true⟩).response
        = .serverError "Translation failed" "Text file is empty" suggestionText ∧
      (translateHandler ⟨some ⟨"uploads/3-4.txt", "blank.txt"⟩, none⟩
        ⟨fun _ => .ok ⟨.error "no pdf", "   "⟩, fun _ => .ok (some "y"), fun _ => true⟩).gatewayCalls
        = [] :=
  translate_empty_content_failure.1 ⟨some ⟨"uploads/3-4.txt", "blank.txt"⟩, none⟩
    ⟨fun _ => .ok ⟨.error "no pdf", "   "⟩, fun _ => .ok (some "y"), fun _ => true⟩
    ⟨"uploads/3-4.txt", "blank.txt"⟩ ⟨.error "no pdf", "   "⟩ rfl (by decide) rfl (by decide)

/-- C8: the stored temporary path does not flow into the translate response
(requests differing only in the stored path, with the same read outcome,
receive identical responses), and every failing extraction's message is
either one of the three fixed human-readable messages of the extractor or
the message of the external read or PDF-parse failure it forwards. -/
theorem translate_no_path_leak :
    (∀ (env : TranslateEnv) (p₁ p₂ name : String) (tl : Option String),
      env.read p₁ = env.read p₂ →
      (translateHandler ⟨some ⟨p₁, name⟩, tl⟩ env).response
        = (translateHandler ⟨some ⟨p₂, name⟩, tl⟩ env).response) ∧
    (∀ (read : String → Except String FsFile) (p name m : String),
      processUploadedFile read p name = .error m →
      m = "Unsupported file type" ∨ m = "PDF contains no readable text" ∨
        m = "Text file is empty" ∨ read p = .error m ∨
        ∃ data, read p = .ok data ∧ data.pdfParseResult = .error m) := by
  constructor
  · intro env p₁ p₂ name tl h
    have hp : processUploadedFile env.read p₁ name = processUploadedFile env.read p₂ name := by
      unfold processUploadedFile; rw [h]
    rw [translateHandler_some, translateHandler_some]
    simp only []
    rw [hp]
    split
    · rfl
    · split <;> rfl
  · intro read p name m h
    unfold processUploadedFile at h
    cases hr : read p with
    | error e =>
      rw [hr] at h
      injection h with he
      subst he
      exact Or.inr (Or.inr (Or.inr (Or.inl rfl)))
    | ok data =>
      rw [hr] at h
      simp only [] at h
      split_ifs at h with hpdf htxt htrim
      · cases hpp : data.pdfParseResult with
        | error e =>
          rw [hpp] at h
          simp only [] at h
          injection h with he
          subst he
          exact Or.inr (Or.inr (Or.inr (Or.inr ⟨data, rfl, hpp⟩)))
        | ok t =>
          rw [hpp] at h
          simp only [] at h
          split_ifs at h with htrim
          injection h with he
          exact Or.inr (Or.inl he.symm)
      · injection h with he
        exact Or.inr (Or.inr (Or.inl he.symm))
      · injection h with he
        exact Or.inl he.symm

/-- C8 witness: with equal read outcomes two stored paths give the same
response, and a concrete failing extraction's message is one of the listed
origins. -/
theorem translate_no_path_leak_witness :
    ((translateHandler ⟨some ⟨"uploads/a", "n.txt"⟩, none⟩
        ⟨fun _ => .ok ⟨.error "e", "hi"⟩, fun _ => .ok (some "x"), fun _ => true⟩).response
      = (translateHandler ⟨some ⟨"uploads/b", "n.txt"⟩, none⟩
        ⟨fun _ => .ok ⟨.error "e", "hi"⟩, fun _ => .ok (some "x"), fun _ => true⟩).response) ∧
    (("Unsupported file type" : String) = "Unsupported file type" ∨
      ("Unsupported file type" : String) = "PDF contains no readable text" ∨
      ("Unsupported file type" : String) = "Text file is empty" ∨
      (fun _ => Except.ok (⟨.error "bad", ""⟩ : FsFile) : String → Except String FsFile) "p"
        = .error "Unsupported file type" ∨
      ∃ data, (fun _ => Except.ok (⟨.error "bad", ""⟩ : FsFile) : String → Except String FsFile) "p"
          = .ok data ∧ data.pdfParseResult = .error "Unsupported file type") :=
  ⟨translate_no_path_leak.1
      ⟨fun _ => .ok ⟨.error "e", "hi"⟩, fun _ => .ok (some "x"), fun _ => true⟩
      "uploads/a" "uploads/b" "n.txt" none rfl,
    translate_no_path_leak.2 (fun _ => .ok ⟨.error "bad", ""⟩) "p" "x.weird"
      "Unsupported file type" rfl⟩

/-! ### theorems: stored filename generation -/

/-- Digit characters of digits below ten are digit characters. -/
lemma digitChar_isDigit : ∀ n, n < 10 → (Nat.digitChar n).isDigit = true := by decide

/-- Digit rendering is injective below ten. -/
lemma digitChar_inj : ∀ m, m < 10 → ∀ n, n < 10 → Nat.digitChar m = Nat.digitChar n → m = n := by
  decide

/-- Every character the digit helper produces is a digit. -/
lemma toDigitsRevAux_digits : ∀ fuel n c, c ∈ toDigitsRevAux fuel n → c.isDigit = true := by
  intro fuel
  induction fuel with
  | zero => intro n c hc; simp [toDigitsRevAux] at hc
  | succ f ih =>
    intro n c hc
    rw [toDigitsRevAux] at hc
    split_ifs at hc with h1
    · simp at hc
      subst hc
      exact digitChar_isDigit n h1
    · simp at hc
      rcases hc with rfl | hc
      · exact digitChar_isDigit _ (Nat.mod_lt _ (by omega))
      · exact ih _ _ hc

/-- With positive fuel the digit helper returns a nonempty list. -/
lemma toDigitsRevAux_ne_nil (fuel n : Nat) (h : 0 < fuel) : toDigitsRevAux fuel n ≠ [] := by
  cases fuel with
  | zero => omega
  | succ f =>
    rw [toDigitsRevAux]
    split_ifs <;> simp

/-- With sufficient fuel on both sides, equal digit lists come from equal
numbers. -/
lemma toDigitsRevAux_inj : ∀ f₁ m f₂ n, m < f₁ → n < f₂ →
    toDigitsRevAux f₁ m = toDigitsRevAux f₂ n → m = n := by
  intro f₁
  induction f₁ with
  | zero => intro m f₂ n hm hn h; omega
  | succ f ih =>
    intro m f₂ n hm hn h
    cases f₂ with
    | zero => omega
    | succ g =>
      rw [toDigitsRevAux, toDigitsRevAux] at h
      split_ifs at h with h1 h2 h2
      · simp at h
        exact digitChar_inj m h1 n h2 h
      · exfalso
        simp at h
        exact toDigitsRevAux_ne_nil g (n / 10) (by omega) h.2
      · exfalso
        simp at h
        exact toDigitsRevAux_ne_nil f (m / 10) (by omega) h.2
      · simp at h
        have e1 : m % 10 = n % 10 :=
          digitChar_inj _ (Nat.mod_lt _ (by omega)) _ (Nat.mod_lt _ (by omega)) h.1
        have e2 : m / 10 = n / 10 := ih (m / 10) g (n / 10) (by omega) (by omega) h.2
        omega

/-- Every character of the decimal rendering is a digit. -/
lemma toDigitsRev_digits (n : Nat) (c : Char) (hc : c ∈ toDigitsRev n) : c.isDigit = true :=
  toDigitsRevAux_digits _ _ _ hc

/-- The decimal rendering of a natural number is injective. -/
lemma toDigitsRev_inj (m n : Nat) (h : toDigitsRev m = toDigitsRev n) : m = n :=
  toDigitsRevAux_inj _ _ _ _ (Nat.lt_succ_self m) (Nat.lt_succ_self n) h

/-- A last-dot suffix always starts with a dot. -/
lemma lastDotSuffix_head : ∀ (cs suf : List Char), lastDotSuffix cs = some suf →
    ∃ l, suf = '.' :: l := by
  intro cs
  induction cs with
  | nil => intro suf h; simp [lastDotSuffix] at h
  | cons c rest ih =>
    intro suf h
    rw [lastDotSuffix] at h
    cases hr : lastDotSuffix rest with
    | some s =>
      rw [hr] at h
      injection h with h'
      exact h' ▸ ih s hr
    | none =>
      rw [hr] at h
      split_ifs at h with hdot
      injection h with h'
      exact ⟨rest, by rw [← h', hdot]⟩

/-- The extension is empty or starts with a dot. -/
lemma extname_shape (s : String) :
    (extname s).data = [] ∨ ∃ l, (extname s).data = '.' :: l := by
  cases hd : s.data with
  | nil => left; simp [extname, hd]
  | cons c rest =>
    cases hr : lastDotSuffix rest with
    | none => left; simp [extname, hd, hr]
    | some suf =>
      right
      obtain ⟨l, hl⟩ := lastDotSuffix_head rest suf hr
      exact ⟨l, by simp [extname, hd, hr, hl]⟩

/-- Splitting a concatenation whose left part is all digits and whose right
part starts with a non-digit is unambiguous. -/
lemma digit_block_split (a₁ : List Char) : ∀ (a₂ b₁ b₂ : List Char),
    a₁ ++ b₁ = a₂ ++ b₂ →
    (∀ c ∈ a₁, c.isDigit = true) → (∀ c ∈ a₂, c.isDigit = true) →
    (∀ c, b₁.head? = some c → c.isDigit = false) →
    (∀ c, b₂.head? = some c → c.isDigit = false) →
    a₁ = a₂ ∧ b₁ = b₂ := by
  induction a₁ with
  | nil =>
    intro a₂ b₁ b₂ h ha₁ ha₂ hb₁ hb₂
    cases a₂ with
    | nil => exact ⟨rfl, h⟩
    | cons c a₂ =>
      exfalso
      simp only [List.nil_append, List.cons_append] at h
      have hd : b₁.head? = some c := by rw [h]; rfl
      have h1 := hb₁ c hd
      have h2 := ha₂ c (List.mem_cons_self c a₂)
      rw [h1] at h2
      exact Bool.false_ne_true h2
  | cons c a₁ ih =>
    intro a₂ b₁ b₂ h ha₁ ha₂ hb₁ hb₂
    cases a₂ with
    | nil =>
      exfalso
      simp only [List.nil_append, List.cons_append] at h
      have hd : b₂.head? = some c := by rw [← h]; rfl
      have h1 := hb₂ c hd
      have h2 := ha₁ c (List.mem_cons_self c a₁)
      rw [h1] at h2
      exact Bool.false_ne_true h2
    | cons c₂ a₂ =>
      simp only [List.cons_append] at h
      injection h with hc ht
      subst hc
      obtain ⟨e1, e2⟩ := ih a₂ b₁ b₂ ht
        (fun x hx => ha₁ x (List.mem_cons_of_mem _ hx))
        (fun x hx => ha₂ x (List.mem_cons_of_mem _ hx)) hb₁ hb₂
      exact ⟨by rw [e1], e2⟩

/-- Character data of a generated stored filename. -/
lemma storedFilename_data (t r : Nat) (name : String) :
    (storedFilename t r name).data
      = (toDigitsRev t).reverse ++ '-' :: ((toDigitsRev r).reverse ++ (extname name).data) := by
  simp [storedFilename, natStr, List.append_assoc]

/-- The head of an extension's character data is never a digit. -/
lemma extname_head_not_digit (name : String) :
    ∀ c, (extname name).data.head? = some c → c.isDigit = false := by
  rcases extname_shape name with hsh | ⟨l, hsh⟩ <;> rw [hsh] <;> intro c hc
  · simp at hc
  · simp at hc
    subst hc
    rfl

/-- C9 counterexample: two distinct uploads that share the same timestamp
and random draw collide on the generated stored filename. -/
theorem storedFilename_collision_counterexample :
    storedFilename 1700000000000 123456789 "a.txt"
        = storedFilename 1700000000000 123456789 "b.txt" ∧
      ("a.txt" : String) ≠ "b.txt" := by
  constructor
  · have he : extname "a.txt" = extname "b.txt" := by decide
    unfold storedFilename
    rw [he]
  · decide

/-- C9 amended: stored filenames are injective in the triple of timestamp,
random suffix and original-name extension, so two uploads receive distinct
names exactly when that triple differs; coinciding timestamp and random
draw (with the same extension) collide. -/
theorem storedFilename_inj (t₁ r₁ : Nat) (n₁ : String) (t₂ r₂ : Nat) (n₂ : String)
    (h : storedFilename t₁ r₁ n₁ = storedFilename t₂ r₂ n₂) :
    t₁ = t₂ ∧ r₁ = r₂ ∧ extname n₁ = extname n₂ := by
  have hd := congrArg String.data h
  rw [storedFilename_data, storedFilename_data] at hd
  obtain ⟨e1, e2⟩ := digit_block_split _ _ _ _ hd
    (fun c hc => toDigitsRev_digits t₁ c (List.mem_reverse.mp hc))
    (fun c hc => toDigitsRev_digits t₂ c (List.mem_reverse.mp hc))
    (by intro c hc; simp at hc; subst hc; rfl)
    (by intro c hc; simp at hc; subst hc; rfl)
  have ht : t₁ = t₂ := toDigitsRev_inj _ _ (List.reverse_injective e1)
  injection e2 with eh e2'
  obtain ⟨f1, f2⟩ := digit_block_split _ _ _ _ e2'
    (fun c hc => toDigitsRev_digits r₁ c (List.mem_reverse.mp hc))
    (fun c hc => toDigitsRev_digits r₂ c (List.mem_reverse.mp hc))
    (extname_head_not_digit n₁) (extname_head_not_digit n₂)
  exact ⟨ht, toDigitsRev_inj _ _ (List.reverse_injective f1), String.ext f2⟩

/-- C9 amended witness: the injectivity theorem applied at a concrete
upload. -/
theorem storedFilename_inj_witness :
    (1700000000000 : Nat) = 1700000000000 ∧ (123456789 : Nat) = 123456789 ∧
      extname "a.txt" = extname "a.txt" :=
  storedFilename_inj 1700000000000 123456789 "a.txt" 1700000000000 123456789 "a.txt" rfl

end Trainify
